import Mathlib

/-!
Shallow embedding of two Terraform provider resources from this repository:

* internal/services/containerapps/container_app_environment_resource.go
  (ContainerAppEnvironmentResource: Create / Read / Update / Delete)
* internal/services/synapse/synapse_workspace_aad_admin_resource.go
  (resourceSynapseWorkspaceAADAdmin: CreateUpdate / Read / Delete)

Remote SDK response structs are embedded with exactly the fields the resource
code touches; Go pointers become Option, Go maps of string tags become
association lists of strings, and each operation becomes a pure function from
the configuration plus an oracle describing the remote API's responses to an
outcome together with the list of remote calls it performed.  A Go nil-pointer
dereference is an explicit outcome constructor.
-/

/-- Outcome of one CRUD operation.  `ok` carries the data the operation
produced (the flattened state for a read, the payload submitted to the remote
create-or-update for a create/update); `markedGone` is `metadata.MarkAsGone`;
`requiresImport` is `metadata.ResourceRequiresImport`; `error` carries the
message string the Go function returns; `nilDeref` marks a Go nil-pointer
dereference (a runtime panic). -/
inductive OpOutcome (σ : Type) where
  | ok (value : σ)
  | markedGone
  | requiresImport
  | error (msg : String)
  | nilDeref
deriving DecidableEq, Repr

/-- One remote management-API call, as recorded in an operation's trace. -/
inductive RemoteCall where
  | managedEnvironmentGet
  | logAnalyticsWorkspaceGet
  | getSharedKeys
  | managedEnvironmentCreateOrUpdate
  | managedEnvironmentDelete
  | synapseAadAdminGet
  | synapseAadAdminCreateOrUpdate
  | synapseAadAdminDelete
  | waitForCompletion
deriving DecidableEq, Repr

/-- Result of a remote Get as the Go code observes it: `notFound` is err with a
404 response (`response.WasNotFound` / `utils.ResponseWasNotFound` true, the
carried string is the error's text), `errOther` is any other error, `ok` is a
nil error with the response body (`none` when the body carried no model). -/
inductive GetResult (α : Type) where
  | notFound (e : String)
  | errOther (e : String)
  | ok (model : Option α)
deriving DecidableEq, Repr

namespace utils

/-- utils.NormalizeNilableString: nil becomes the empty string. -/
def NormalizeNilableString (s : Option String) : String := s.getD ""

/-- utils.NormaliseNilableBool: nil becomes false. -/
def NormaliseNilableBool (b : Option Bool) : Bool := b.getD false

end utils

namespace location

/-- location.Normalize from go-azure-helpers: lowercase the string and remove
every space (replacing each single-character space pattern by the empty
string is the same as filtering spaces out). -/
def Normalize (s : String) : String :=
  String.mk ((s.data.map Char.toLower).filter (fun c => c ≠ ' '))

end location

namespace tags

/-- tags.Expand: the schema restricts tag values to strings, so the
map of string to interface becomes an association list of strings; the Go
function always returns a non-nil map pointer. -/
def Expand (t : List (String × String)) : Option (List (String × String)) := some t

/-- tags.Flatten: a nil map pointer flattens to the empty map. -/
def Flatten (t : Option (List (String × String))) : List (String × String) := t.getD []

end tags

namespace managedenvironments

/-- VnetConfiguration from the containerapps SDK; only the fields the resource
reads or writes. -/
structure VnetConfiguration where
  InfrastructureSubnetId : Option String := none
  Internal : Option Bool := none
  DockerBridgeCidr : Option String := none
  PlatformReservedCidr : Option String := none
  PlatformReservedDnsIP : Option String := none
deriving DecidableEq, Repr

/-- LogAnalyticsConfiguration from the containerapps SDK. -/
structure LogAnalyticsConfiguration where
  CustomerId : Option String := none
  SharedKey : Option String := none
deriving DecidableEq, Repr

/-- AppLogsConfiguration from the containerapps SDK. -/
structure AppLogsConfiguration where
  Destination : Option String := none
  LogAnalyticsConfiguration : Option managedenvironments.LogAnalyticsConfiguration := none
deriving DecidableEq, Repr

/-- ManagedEnvironmentProperties from the containerapps SDK; only the fields
the resource touches. -/
structure ManagedEnvironmentProperties where
  AppLogsConfiguration : Option managedenvironments.AppLogsConfiguration := none
  VnetConfiguration : Option managedenvironments.VnetConfiguration := none
  StaticIP : Option String := none
  DefaultDomain : Option String := none
deriving DecidableEq, Repr

/-- SystemData from the containerapps SDK (string timestamps; note the SDK's
field name LastModifiedbyType with a lowercase b). -/
structure SystemData where
  CreatedAt : String := ""
  CreatedBy : String := ""
  CreatedByType : String := ""
  LastModifiedAt : String := ""
  LastModifiedBy : String := ""
  LastModifiedbyType : String := ""
deriving DecidableEq, Repr

/-- ManagedEnvironment from the containerapps SDK; only the fields the
resource touches. -/
structure ManagedEnvironment where
  Location : String := ""
  Name : Option String := none
  Properties : Option managedenvironments.ManagedEnvironmentProperties := none
  Tags : Option (List (String × String)) := none
  SystemData : Option managedenvironments.SystemData := none
deriving DecidableEq, Repr

end managedenvironments

namespace loganalytics

/-- WorkspaceProperties from the operational-insights SDK; only CustomerID is
read. -/
structure WorkspaceProperties where
  CustomerID : Option String := none
deriving DecidableEq, Repr

/-- Workspace from the operational-insights SDK. -/
structure Workspace where
  WorkspaceProperties : Option loganalytics.WorkspaceProperties := none
deriving DecidableEq, Repr

/-- SharedKeys from the operational-insights SDK; only PrimarySharedKey is
read. -/
structure SharedKeys where
  PrimarySharedKey : Option String := none
deriving DecidableEq, Repr

end loganalytics

/-- The Terraform model of azurerm_container_app_environment
(ContainerAppEnvironmentModel in the source). -/
structure ContainerAppEnvironmentModel where
  Name : String := ""
  ResourceGroup : String := ""
  Location : String := ""
  LogAnalyticsWorkspaceId : String := ""
  InfrastructureSubnetId : String := ""
  InternalLoadBalancerEnabled : Bool := false
  Tags : List (String × String) := []
  DefaultDomain : String := ""
  DockerBridgeCidr : String := ""
  PlatformReservedCidr : String := ""
  PlatformReservedDnsIP : String := ""
  StaticIP : String := ""
  CreatedAt : String := ""
  CreatedBy : String := ""
  CreatedByType : String := ""
  LastModifiedAt : String := ""
  LastModifiedBy : String := ""
  LastModifiedByType : String := ""
deriving DecidableEq, Repr

/-- The Go zero value of ContainerAppEnvironmentModel, i.e. the local state
before any field is flattened into it. -/
def ContainerAppEnvironmentModel.empty : ContainerAppEnvironmentModel := {}

/-- The VnetConfiguration the Create function submits: it starts from the
empty struct and fills InfrastructureSubnetId and Internal only when the
configured infrastructure_subnet_id is non-empty (source lines 226-234). -/
def ContainerAppEnvironmentResource.createVnetConfiguration
    (cfg : ContainerAppEnvironmentModel) : managedenvironments.VnetConfiguration :=
  if cfg.InfrastructureSubnetId ≠ "" then
    { InfrastructureSubnetId := some cfg.InfrastructureSubnetId,
      Internal := some cfg.InternalLoadBalancerEnabled }
  else {}

/-- The ManagedEnvironment payload the Create function submits to the remote
create-or-update (source lines 215-234); customerId and sharedKey are the
values read from the Log Analytics workspace and its shared keys after the
nil guards. -/
def ContainerAppEnvironmentResource.createPayload
    (cfg : ContainerAppEnvironmentModel) (customerId sharedKey : String) :
    managedenvironments.ManagedEnvironment :=
  { Location := cfg.Location,
    Name := some cfg.Name,
    Properties := some
      { AppLogsConfiguration := some
          { Destination := some "log-analytics",
            LogAnalyticsConfiguration := some
              { CustomerId := some customerId, SharedKey := some sharedKey } },
        VnetConfiguration := some (ContainerAppEnvironmentResource.createVnetConfiguration cfg) },
    Tags := tags.Expand cfg.Tags,
    SystemData := none }

/-- Flattening of a fetched ManagedEnvironment into the local model (source
lines 264-293): each nil nested object leaves its fields at the zero value.
envName and rgName are the components of the parsed resource ID. -/
def ContainerAppEnvironmentResource.flattenModel (envName rgName : String)
    (model : Option managedenvironments.ManagedEnvironment) :
    ContainerAppEnvironmentModel :=
  let state := ContainerAppEnvironmentModel.empty
  match model with
  | none => state
  | some m =>
    let state :=
      { state with
        Name := envName
        ResourceGroup := rgName
        Location := location.Normalize m.Location
        Tags := tags.Flatten m.Tags }
    let state :=
      match m.Properties with
      | none => state
      | some props =>
        let state :=
          match props.VnetConfiguration with
          | none => state
          | some vnet =>
            { state with
              InfrastructureSubnetId := utils.NormalizeNilableString vnet.InfrastructureSubnetId
              InternalLoadBalancerEnabled := utils.NormaliseNilableBool vnet.Internal
              DockerBridgeCidr := utils.NormalizeNilableString vnet.DockerBridgeCidr
              PlatformReservedCidr := utils.NormalizeNilableString vnet.PlatformReservedCidr
              PlatformReservedDnsIP := utils.NormalizeNilableString vnet.PlatformReservedDnsIP }
        { state with
          StaticIP := utils.NormalizeNilableString props.StaticIP
          DefaultDomain := utils.NormalizeNilableString props.DefaultDomain }
    match m.SystemData with
    | none => state
    | some sysData =>
      { state with
        CreatedAt := sysData.CreatedAt
        CreatedBy := sysData.CreatedBy
        CreatedByType := sysData.CreatedByType
        LastModifiedAt := sysData.LastModifiedAt
        LastModifiedBy := sysData.LastModifiedBy
        LastModifiedByType := sysData.LastModifiedbyType }

/-- The full state the Read function encodes: the flattened model, with
log_analytics_workspace_id copied from the existing configuration when that
value is non-empty (source lines 295-298), never from the remote response. -/
def ContainerAppEnvironmentResource.flattenRead (envName rgName : String)
    (model : Option managedenvironments.ManagedEnvironment)
    (configLogAnalyticsWorkspaceId : String) : ContainerAppEnvironmentModel :=
  let state := ContainerAppEnvironmentResource.flattenModel envName rgName model
  if configLogAnalyticsWorkspaceId ≠ "" then
    { state with LogAnalyticsWorkspaceId := configLogAnalyticsWorkspaceId }
  else state

/-- Oracle for the remote calls the Create function can make: the initial
existence Get of the managed environment, the Log Analytics workspace Get,
the shared-keys Get, and the error (if any) of CreateOrUpdateThenPoll. -/
structure ContainerCreateRemote where
  getResult : GetResult managedenvironments.ManagedEnvironment
  workspaceGet : Except String loganalytics.Workspace
  sharedKeysGet : Except String loganalytics.SharedKeys
  createOrUpdateError : Option String
deriving Repr

/-- ContainerAppEnvironmentResource.Create (source lines 164-244), as a
function of the decoded configuration, the rendered strings of the
environment ID and the Log Analytics workspace ID (both produced by external
ID helpers), and the remote oracle.  Returns the outcome (ok carries the
payload submitted to the remote create-or-update) and the trace of remote
calls.  The external parse of log_analytics_workspace_id is assumed to
succeed, as validation guarantees. -/
def ContainerAppEnvironmentResource.CreateFunc (cfg : ContainerAppEnvironmentModel)
    (idStr logAnalyticsIdStr : String) (remote : ContainerCreateRemote) :
    OpOutcome managedenvironments.ManagedEnvironment × List RemoteCall :=
  match remote.getResult with
  | .errOther e =>
    (.error ("checking for presence of existing " ++ idStr ++ ": " ++ e),
     [.managedEnvironmentGet])
  | .ok _ => (.requiresImport, [.managedEnvironmentGet])
  | .notFound _ =>
    match remote.workspaceGet with
    | .error e =>
      (.error ("retrieving " ++ logAnalyticsIdStr ++ " for " ++ idStr ++ ": " ++ e),
       [.managedEnvironmentGet, .logAnalyticsWorkspaceGet])
    | .ok workspace =>
      match workspace.WorkspaceProperties with
      | none =>
        (.error ("retrieving " ++ logAnalyticsIdStr ++ " for " ++ idStr ++ ": <nil>"),
         [.managedEnvironmentGet, .logAnalyticsWorkspaceGet])
      | some wsProps =>
        match wsProps.CustomerID with
        | none =>
          (.error ("reading customer ID from " ++ logAnalyticsIdStr),
           [.managedEnvironmentGet, .logAnalyticsWorkspaceGet])
        | some customerId =>
          match remote.sharedKeysGet with
          | .error e =>
            (.error ("retrieving access keys to " ++ logAnalyticsIdStr ++ " for "
                ++ idStr ++ ": " ++ e),
             [.managedEnvironmentGet, .logAnalyticsWorkspaceGet, .getSharedKeys])
          | .ok keys =>
            match keys.PrimarySharedKey with
            | none =>
              (.error ("reading shared key for " ++ logAnalyticsIdStr ++ " in " ++ idStr),
               [.managedEnvironmentGet, .logAnalyticsWorkspaceGet, .getSharedKeys])
            | some sharedKey =>
              match remote.createOrUpdateError with
              | some e =>
                (.error ("creating " ++ idStr ++ ": " ++ e),
                 [.managedEnvironmentGet, .logAnalyticsWorkspaceGet, .getSharedKeys,
                  .managedEnvironmentCreateOrUpdate])
              | none =>
                (.ok (ContainerAppEnvironmentResource.createPayload cfg customerId sharedKey),
                 [.managedEnvironmentGet, .logAnalyticsWorkspaceGet, .getSharedKeys,
                  .managedEnvironmentCreateOrUpdate])

/-- ContainerAppEnvironmentResource.Read (source lines 246-307): a not-found
Get marks the resource as gone, any other Get error is wrapped, and a
successful response is flattened.  envName and rgName are the components of
the parsed ID, configLogAnalyticsWorkspaceId the configured
log_analytics_workspace_id. -/
def ContainerAppEnvironmentResource.ReadFunc (idStr envName rgName : String)
    (configLogAnalyticsWorkspaceId : String)
    (getResult : GetResult managedenvironments.ManagedEnvironment) :
    OpOutcome ContainerAppEnvironmentModel × List RemoteCall :=
  match getResult with
  | .notFound _ => (.markedGone, [.managedEnvironmentGet])
  | .errOther e => (.error ("reading " ++ idStr ++ ": " ++ e), [.managedEnvironmentGet])
  | .ok model =>
    (.ok (ContainerAppEnvironmentResource.flattenRead envName rgName model
        configLogAnalyticsWorkspaceId),
     [.managedEnvironmentGet])

/-- The model the Update function submits to the remote create-or-update
(source lines 348-352): the fetched model, with Tags replaced by the expanded
configured tags exactly when the tags field has changed. -/
def ContainerAppEnvironmentResource.updatePayload (hasChangeTags : Bool)
    (stateTags : List (String × String))
    (fetched : managedenvironments.ManagedEnvironment) :
    managedenvironments.ManagedEnvironment :=
  if hasChangeTags then { fetched with Tags := tags.Expand stateTags } else fetched

/-- ContainerAppEnvironmentResource.Update (source lines 328-359): decode the
configuration, Get the existing remote model (any error wrapped, no gone
handling), overwrite its Tags when the tags field changed, and submit it to
the remote create-or-update.  A nil fetched Model is dereferenced without a
guard.  ok carries the submitted model. -/
def ContainerAppEnvironmentResource.UpdateFunc (idStr : String)
    (decodeResult : Except String ContainerAppEnvironmentModel)
    (hasChangeTags : Bool)
    (getResult : GetResult managedenvironments.ManagedEnvironment)
    (createOrUpdateError : Option String) :
    OpOutcome managedenvironments.ManagedEnvironment × List RemoteCall :=
  match decodeResult with
  | .error e => (.error ("decoding: " ++ e), [])
  | .ok state =>
    match getResult with
    | .notFound e => (.error ("reading " ++ idStr ++ ": " ++ e), [.managedEnvironmentGet])
    | .errOther e => (.error ("reading " ++ idStr ++ ": " ++ e), [.managedEnvironmentGet])
    | .ok none => (.nilDeref, [.managedEnvironmentGet])
    | .ok (some fetched) =>
      let submitted := ContainerAppEnvironmentResource.updatePayload hasChangeTags
        state.Tags fetched
      match createOrUpdateError with
      | some e =>
        (.error ("updating " ++ idStr ++ ": " ++ e),
         [.managedEnvironmentGet, .managedEnvironmentCreateOrUpdate])
      | none =>
        (.ok submitted, [.managedEnvironmentGet, .managedEnvironmentCreateOrUpdate])

/-- ContainerAppEnvironmentResource.Delete (source lines 309-326): the remote
delete-then-poll, its error wrapped. -/
def ContainerAppEnvironmentResource.DeleteFunc (idStr : String)
    (deleteError : Option String) : OpOutcome Unit × List RemoteCall :=
  match deleteError with
  | some e => (.error ("deleting " ++ idStr ++ ": " ++ e), [.managedEnvironmentDelete])
  | none => (.ok (), [.managedEnvironmentDelete])

namespace synapse

/-- AadAdminProperties from the synapse SDK. -/
structure AadAdminProperties where
  TenantID : Option String := none
  Login : Option String := none
  AdministratorType : Option String := none
  Sid : Option String := none
deriving DecidableEq, Repr

/-- WorkspaceAadAdminInfo from the synapse SDK; on an error response the SDK
returns the zero struct, whose AadAdminProperties pointer is nil. -/
structure WorkspaceAadAdminInfo where
  AadAdminProperties : Option synapse.AadAdminProperties := none
deriving DecidableEq, Repr

end synapse

/-- Modelled from the spec: the parsed Synapse workspace resource ID (the
repository's parse.WorkspaceId helper is outside src/); the spec describes
only a resource-ID shape, rendered here in the canonical Azure format. -/
structure WorkspaceId where
  SubscriptionId : String
  ResourceGroup : String
  Name : String
deriving DecidableEq, Repr

/-- Modelled from the spec: the canonical string form of a Synapse workspace
ID, as produced by the repository's NewWorkspaceID(...).ID() (outside src/). -/
def WorkspaceId.ID (w : WorkspaceId) : String :=
  "/subscriptions/" ++ w.SubscriptionId ++ "/resourceGroups/" ++ w.ResourceGroup
    ++ "/providers/Microsoft.Synapse/workspaces/" ++ w.Name

/-- Modelled from the spec: the parsed Synapse workspace AAD admin ID (the
repository's parse.WorkspaceAADAdminId helper is outside src/); the create
function builds it from the workspace ID's components. -/
structure WorkspaceAADAdminId where
  SubscriptionId : String
  ResourceGroup : String
  WorkspaceName : String
deriving DecidableEq, Repr

/-- The configured fields of azurerm_synapse_workspace_aad_admin. -/
structure AadAdminConfig where
  synapse_workspace_id : String := ""
  login : String := ""
  object_id : String := ""
  tenant_id : String := ""
deriving DecidableEq, Repr

/-- The state the Synapse AAD admin Read sets. -/
structure AadAdminState where
  synapse_workspace_id : String := ""
  login : String := ""
  object_id : String := ""
  tenant_id : String := ""
deriving DecidableEq, Repr

/-- Go's %q formatting of a string: the value wrapped in double quotes. -/
def goQuote (s : String) : String := "\"" ++ s ++ "\""

/-- The WorkspaceAadAdminInfo payload the create/update function submits
(source lines 76-83). -/
def synapseAadAdminPayload (cfg : AadAdminConfig) : synapse.WorkspaceAadAdminInfo :=
  { AadAdminProperties := some
      { TenantID := some cfg.tenant_id,
        Login := some cfg.login,
        AdministratorType := some "ActiveDirectory",
        Sid := some cfg.object_id } }

/-- Remote oracle for the Synapse AAD admin operations.  remoteExists records
whether an AAD admin is already configured on the remote workspace; the
create/update function never consults it (the source performs no existence
check).  createOrUpdate is the remote create-or-update endpoint, returning
for a submitted payload the error of the call, if any.  getResult describes
the Get the Read performs; on a 404 the SDK returns an info struct whose
AadAdminProperties is nil. -/
structure SynapseRemote where
  remoteExists : Bool
  createOrUpdate : synapse.WorkspaceAadAdminInfo → Option String
  waitError : Option String
  getResult : GetResult synapse.WorkspaceAadAdminInfo

/-- resourceSynapseWorkspaceAADAdminRead (source lines 100-125): a Get error
that is not a 404 is wrapped and returned; a 404 is NOT returned as an error
and the function falls through to line 120, where aadAdmin.AadAdminProperties
is nil and dereferencing it panics (the resource is never marked as gone —
the function has no path that clears the ID).  On success the three admin
fields are set from the response and synapse_workspace_id is rebuilt from the
parsed ID's components, never read from the response. -/
def resourceSynapseWorkspaceAADAdminReadFunc (id : WorkspaceAADAdminId)
    (getResult : GetResult synapse.WorkspaceAadAdminInfo) :
    OpOutcome AadAdminState × List RemoteCall :=
  match getResult with
  | .errOther e =>
    (.error ("retrieving Synapse Workspace " ++ goQuote id.WorkspaceName
        ++ " AAD Admin (Resource Group " ++ goQuote id.ResourceGroup ++ "): " ++ e),
     [.synapseAadAdminGet])
  | .notFound _ => (.nilDeref, [.synapseAadAdminGet])
  | .ok none => (.nilDeref, [.synapseAadAdminGet])
  | .ok (some info) =>
    match info.AadAdminProperties with
    | none => (.nilDeref, [.synapseAadAdminGet])
    | some props =>
      (.ok { synapse_workspace_id :=
               (WorkspaceId.mk id.SubscriptionId id.ResourceGroup id.WorkspaceName).ID,
             login := utils.NormalizeNilableString props.Login,
             object_id := utils.NormalizeNilableString props.Sid,
             tenant_id := utils.NormalizeNilableString props.TenantID },
       [.synapseAadAdminGet])

/-- resourceSynapseWorkspaceAADAdminCreateUpdate (source lines 64-98): with no
existence check of any kind, it submits the payload to the remote
create-or-update, waits for completion (both errors wrapped), sets the ID
built from the workspace ID's components, and ends by calling the Read
function.  workspaceId is the parse of the configured synapse_workspace_id
(the external parser, assumed to succeed as validation guarantees). -/
def resourceSynapseWorkspaceAADAdminCreateUpdateFunc (cfg : AadAdminConfig)
    (workspaceId : WorkspaceId) (remote : SynapseRemote) :
    OpOutcome AadAdminState × List RemoteCall :=
  match remote.createOrUpdate (synapseAadAdminPayload cfg) with
  | some e =>
    (.error ("updating Synapse Workspace " ++ goQuote workspaceId.Name
        ++ " AAD Admin (Resource Group " ++ goQuote workspaceId.ResourceGroup ++ "): " ++ e),
     [.synapseAadAdminCreateOrUpdate])
  | none =>
    match remote.waitError with
    | some e =>
      (.error ("waiting on updating for Synapse Workspace " ++ goQuote workspaceId.Name
          ++ " AAD Admin (Resource Group " ++ goQuote workspaceId.ResourceGroup ++ "): " ++ e),
       [.synapseAadAdminCreateOrUpdate, .waitForCompletion])
    | none =>
      let id : WorkspaceAADAdminId :=
        { SubscriptionId := workspaceId.SubscriptionId,
          ResourceGroup := workspaceId.ResourceGroup,
          WorkspaceName := workspaceId.Name }
      let rd := resourceSynapseWorkspaceAADAdminReadFunc id remote.getResult
      (rd.1, [.synapseAadAdminCreateOrUpdate, .waitForCompletion] ++ rd.2)

/-- resourceSynapseWorkspaceAADAdminDelete (source lines 127-147): the remote
delete and the wait on its future, both errors wrapped. -/
def resourceSynapseWorkspaceAADAdminDeleteFunc (id : WorkspaceAADAdminId)
    (deleteError waitError : Option String) : OpOutcome Unit × List RemoteCall :=
  match deleteError with
  | some e =>
    (.error ("setting empty Synapse Workspace " ++ goQuote id.WorkspaceName
        ++ " AAD Admin (Resource Group " ++ goQuote id.ResourceGroup ++ "): " ++ e),
     [.synapseAadAdminDelete])
  | none =>
    match waitError with
    | some e =>
      (.error ("waiting on setting empty Synapse Workspace " ++ goQuote id.WorkspaceName
          ++ " AAD Admin (Resource Group " ++ goQuote id.ResourceGroup ++ "): " ++ e),
       [.synapseAadAdminDelete, .waitForCompletion])
    | none => (.ok (), [.synapseAadAdminDelete, .waitForCompletion])

/-- Timeout in minutes of each ContainerAppEnvironmentResource operation, as
set in its sdk.ResourceFunc (source lines 166, 248, 311, 330). -/
def ContainerAppEnvironmentResource.TimeoutMinutes : String → Nat
  | "create" => 30
  | "read" => 5
  | "update" => 30
  | "delete" => 30
  | _ => 0

/-- Timeouts in minutes of resourceSynapseWorkspaceAADAdmin (source lines
24-29): Create 30, Read 5, Update 30, Delete 30. -/
def resourceSynapseWorkspaceAADAdminTimeoutMinutes : String → Nat
  | "create" => 30
  | "read" => 5
  | "update" => 30
  | "delete" => 30
  | _ => 0

/-! Theorems.  Each claim of the specification gets one theorem below;
helper lemmas are shared. -/

/-- The flattening of a fetched model never writes LogAnalyticsWorkspaceId:
whatever the remote returned, the field is still at its zero value before the
config copy-back at the end of Read. -/
theorem flattenModel_logAnalyticsWorkspaceId (envName rgName : String)
    (model : Option managedenvironments.ManagedEnvironment) :
    (ContainerAppEnvironmentResource.flattenModel envName rgName model).LogAnalyticsWorkspaceId
      = "" := by
  rcases model with _ | ⟨loc, nm, props, tg, sd⟩
  · rfl
  rcases props with _ | ⟨al, vnet, sip, dd⟩
  · rcases sd with _ | sd <;> rfl
  rcases vnet with _ | vnet <;> rcases sd with _ | sd <;> rfl

/-- Claim C5: when no configured field has changed (in particular the tags
field has not changed), the Update operation submits to the remote
create-or-update exactly the model it fetched from the remote Get, so the
remote state is unchanged. -/
theorem claim_C5_noop_update (idStr : String) (state : ContainerAppEnvironmentModel)
    (fetched : managedenvironments.ManagedEnvironment) :
    ContainerAppEnvironmentResource.UpdateFunc idStr (Except.ok state) false
        (GetResult.ok (some fetched)) none
      = (OpOutcome.ok fetched, [RemoteCall.managedEnvironmentGet,
          RemoteCall.managedEnvironmentCreateOrUpdate]) := by
  simp [ContainerAppEnvironmentResource.UpdateFunc,
    ContainerAppEnvironmentResource.updatePayload]

/-- Claim C6: the Container App Environment Update modifies only the Tags of
the remote model, and only when the tags field has changed; Location, Name,
Properties and SystemData of the submitted model equal those of the fetched
model. -/
theorem claim_C6_update_frame (hasChangeTags : Bool)
    (stateTags : List (String × String))
    (fetched : managedenvironments.ManagedEnvironment) :
    (ContainerAppEnvironmentResource.updatePayload hasChangeTags stateTags fetched).Location
        = fetched.Location
    ∧ (ContainerAppEnvironmentResource.updatePayload hasChangeTags stateTags fetched).Name
        = fetched.Name
    ∧ (ContainerAppEnvironmentResource.updatePayload hasChangeTags stateTags fetched).Properties
        = fetched.Properties
    ∧ (ContainerAppEnvironmentResource.updatePayload hasChangeTags stateTags fetched).SystemData
        = fetched.SystemData
    ∧ (ContainerAppEnvironmentResource.updatePayload hasChangeTags stateTags fetched).Tags
        = (if hasChangeTags then tags.Expand stateTags else fetched.Tags) := by
  cases hasChangeTags <;>
    simp [ContainerAppEnvironmentResource.updatePayload]

/-- Claim C7: every operation of both resources has a timeout between 5 and
30 minutes inclusive; Read is 5 minutes, Create, Update and Delete are 30. -/
theorem claim_C7_timeouts :
    ContainerAppEnvironmentResource.TimeoutMinutes "create" = 30
    ∧ ContainerAppEnvironmentResource.TimeoutMinutes "read" = 5
    ∧ ContainerAppEnvironmentResource.TimeoutMinutes "update" = 30
    ∧ ContainerAppEnvironmentResource.TimeoutMinutes "delete" = 30
    ∧ resourceSynapseWorkspaceAADAdminTimeoutMinutes "create" = 30
    ∧ resourceSynapseWorkspaceAADAdminTimeoutMinutes "read" = 5
    ∧ resourceSynapseWorkspaceAADAdminTimeoutMinutes "update" = 30
    ∧ resourceSynapseWorkspaceAADAdminTimeoutMinutes "delete" = 30
    ∧ (∀ op : String, ContainerAppEnvironmentResource.TimeoutMinutes op = 0
        ∨ (5 ≤ ContainerAppEnvironmentResource.TimeoutMinutes op
            ∧ ContainerAppEnvironmentResource.TimeoutMinutes op ≤ 30))
    ∧ (∀ op : String, resourceSynapseWorkspaceAADAdminTimeoutMinutes op = 0
        ∨ (5 ≤ resourceSynapseWorkspaceAADAdminTimeoutMinutes op
            ∧ resourceSynapseWorkspaceAADAdminTimeoutMinutes op ≤ 30)) := by
  refine ⟨rfl, rfl, rfl, rfl, rfl, rfl, rfl, rfl, ?_, ?_⟩
  · intro op
    unfold ContainerAppEnvironmentResource.TimeoutMinutes
    split <;> simp
  · intro op
    unfold resourceSynapseWorkspaceAADAdminTimeoutMinutes
    split <;> simp

/-- Claim C9: the Container App Environment Read never takes
log_analytics_workspace_id from the remote response: whatever model the
remote returned, the encoded value is the configured one when that is
non-empty and the zero value otherwise. -/
theorem claim_C9_log_analytics_from_config (envName rgName : String)
    (model : Option managedenvironments.ManagedEnvironment)
    (configLogAnalyticsWorkspaceId : String) :
    (ContainerAppEnvironmentResource.flattenRead envName rgName model
        configLogAnalyticsWorkspaceId).LogAnalyticsWorkspaceId
      = if configLogAnalyticsWorkspaceId = "" then ""
        else configLogAnalyticsWorkspaceId := by
  unfold ContainerAppEnvironmentResource.flattenRead
  by_cases h : configLogAnalyticsWorkspaceId = "" <;>
    simp [h, flattenModel_logAnalyticsWorkspaceId]

/-- Claim C10: when the configured infrastructure_subnet_id is empty, the
create payload carries a VnetConfiguration with no subnet ID and no internal
flag, whatever internal_load_balancer_enabled is; the internal flag is
present in the payload exactly when a subnet ID is supplied. -/
theorem claim_C10_vnet_payload (cfg : ContainerAppEnvironmentModel)
    (customerId sharedKey : String) :
    (ContainerAppEnvironmentResource.createPayload cfg customerId sharedKey).Properties
      = some
        { AppLogsConfiguration := some
            { Destination := some "log-analytics",
              LogAnalyticsConfiguration := some
                { CustomerId := some customerId, SharedKey := some sharedKey } },
          VnetConfiguration := some
            (if cfg.InfrastructureSubnetId = "" then {}
             else { InfrastructureSubnetId := some cfg.InfrastructureSubnetId,
                    Internal := some cfg.InternalLoadBalancerEnabled }),
          StaticIP := none,
          DefaultDomain := none }
    ∧ ((ContainerAppEnvironmentResource.createVnetConfiguration cfg).Internal = none
        ↔ cfg.InfrastructureSubnetId = "") := by
  constructor
  · unfold ContainerAppEnvironmentResource.createPayload
      ContainerAppEnvironmentResource.createVnetConfiguration
    by_cases h : cfg.InfrastructureSubnetId = "" <;> simp [h]
  · unfold ContainerAppEnvironmentResource.createVnetConfiguration
    by_cases h : cfg.InfrastructureSubnetId = "" <;> simp [h]

/-- Claim C1: the Container App Environment Read marks the resource as gone on
a not-found Get, but the Synapse AAD admin Read does not: on a 404 it skips
the error return and dereferences the nil AadAdminProperties of the zero
response (a panic), and no response at all makes it mark the resource as
gone.  This evaluates the code at the failing input of the claim. -/
theorem claim_C1_read_gone_signaling :
    (ContainerAppEnvironmentResource.ReadFunc "envid1" "env1" "rg1" "law1"
        (GetResult.notFound "404")).1 = OpOutcome.markedGone
    ∧ (resourceSynapseWorkspaceAADAdminReadFunc ⟨"sub1", "rg1", "ws1"⟩
        (GetResult.notFound "404")).1 = OpOutcome.nilDeref
    ∧ ∀ g, (resourceSynapseWorkspaceAADAdminReadFunc ⟨"sub1", "rg1", "ws1"⟩ g).1
        ≠ OpOutcome.markedGone := by
  refine ⟨rfl, rfl, ?_⟩
  intro g
  rcases g with e | e | m
  · simp [resourceSynapseWorkspaceAADAdminReadFunc]
  · simp [resourceSynapseWorkspaceAADAdminReadFunc]
  · rcases m with _ | ⟨props⟩
    · simp [resourceSynapseWorkspaceAADAdminReadFunc]
    · rcases props with _ | props <;> simp [resourceSynapseWorkspaceAADAdminReadFunc]

/-- Claim C2: the Container App Environment flattening is null-guarded (a nil
Properties and nil SystemData leave every nested field at its zero value),
but the Synapse AAD admin Read is not: a response whose AadAdminProperties is
nil (which is exactly what the SDK returns on a 404) is dereferenced at the
login field, a nil-pointer panic.  This evaluates the code at the failing
input of the claim. -/
theorem claim_C2_null_guarded_flatten :
    (∀ envName rgName loc nm tg,
        ContainerAppEnvironmentResource.flattenModel envName rgName
            (some { Location := loc, Name := nm, Properties := none, Tags := tg,
                    SystemData := none })
          = { ContainerAppEnvironmentModel.empty with
              Name := envName, ResourceGroup := rgName,
              Location := location.Normalize loc, Tags := tags.Flatten tg })
    ∧ (resourceSynapseWorkspaceAADAdminReadFunc ⟨"sub1", "rg1", "ws1"⟩
        (GetResult.ok (some { AadAdminProperties := none }))).1 = OpOutcome.nilDeref
    ∧ (resourceSynapseWorkspaceAADAdminReadFunc ⟨"sub1", "rg1", "ws1"⟩
        (GetResult.ok none)).1 = OpOutcome.nilDeref := by
  refine ⟨?_, rfl, rfl⟩
  intro envName rgName loc nm tg
  rfl

/-- A concrete configuration for the Synapse AAD admin counterexamples. -/
def synapseCfg1 : AadAdminConfig :=
  { synapse_workspace_id :=
      "/subscriptions/sub1/resourceGroups/rg1/providers/Microsoft.Synapse/workspaces/ws1",
    login := "admin1", object_id := "oid1", tenant_id := "tid1" }

/-- A Synapse remote on which the AAD admin already exists and every call
succeeds; the Get returns the stored payload. -/
def synapseRemoteExisting : SynapseRemote :=
  { remoteExists := true,
    createOrUpdate := fun _ => none,
    waitError := none,
    getResult := GetResult.ok (some (synapseAadAdminPayload synapseCfg1)) }

/-- Claim C3 counterexample: on a remote where the Synapse AAD admin already
exists, the create function neither fails with the import-required condition
nor avoids the remote create: it unconditionally calls the remote
create-or-update (there is no existence check in the source). -/
theorem claim_C3_counterexample :
    synapseRemoteExisting.remoteExists = true
    ∧ (resourceSynapseWorkspaceAADAdminCreateUpdateFunc synapseCfg1
          ⟨"sub1", "rg1", "ws1"⟩ synapseRemoteExisting).1 ≠ OpOutcome.requiresImport
    ∧ RemoteCall.synapseAadAdminCreateOrUpdate ∈
        (resourceSynapseWorkspaceAADAdminCreateUpdateFunc synapseCfg1
          ⟨"sub1", "rg1", "ws1"⟩ synapseRemoteExisting).2 := by
  refine ⟨rfl, ?_, ?_⟩ <;> decide

/-- Claim C3 as amended: the Container App Environment Create performs the
existence check — when the initial Get finds the resource it returns the
import-required condition and never calls the remote create — while the
Synapse AAD admin create/update performs no existence check and calls the
remote create-or-update on every run. -/
theorem claim_C3_amended_existence_check :
    (∀ (cfg : ContainerAppEnvironmentModel) (idStr lawStr : String)
        (remote : ContainerCreateRemote) m,
        remote.getResult = GetResult.ok m →
        ContainerAppEnvironmentResource.CreateFunc cfg idStr lawStr remote
            = (OpOutcome.requiresImport, [RemoteCall.managedEnvironmentGet])
          ∧ RemoteCall.managedEnvironmentCreateOrUpdate ∉
              (ContainerAppEnvironmentResource.CreateFunc cfg idStr lawStr remote).2)
    ∧ ∀ (cfg : AadAdminConfig) (workspaceId : WorkspaceId) (remote : SynapseRemote),
        RemoteCall.synapseAadAdminCreateOrUpdate ∈
          (resourceSynapseWorkspaceAADAdminCreateUpdateFunc cfg workspaceId remote).2 := by
  constructor
  · intro cfg idStr lawStr remote m h
    rcases remote with ⟨g, wg, kg, cu⟩
    simp only at h
    subst h
    constructor
    · rfl
    · simp [ContainerAppEnvironmentResource.CreateFunc]
  · intro cfg workspaceId remote
    unfold resourceSynapseWorkspaceAADAdminCreateUpdateFunc
    rcases remote.createOrUpdate (synapseAadAdminPayload cfg) with _ | e
    · rcases remote.waitError with _ | e
      · simp
      · simp
    · simp

/-- Witness for the amended Claim C3 at a concrete input: a Get that finds an
existing environment makes Create return the import-required condition
having called only the Get. -/
theorem claim_C3_amended_existence_check_witness :
    ContainerAppEnvironmentResource.CreateFunc {} "envid1" "lawid1"
        { getResult := GetResult.ok (some {}), workspaceGet := Except.ok {},
          sharedKeysGet := Except.ok {}, createOrUpdateError := none }
      = (OpOutcome.requiresImport, [RemoteCall.managedEnvironmentGet]) :=
  (claim_C3_amended_existence_check.1 {} "envid1" "lawid1"
    { getResult := GetResult.ok (some {}), workspaceGet := Except.ok {},
      sharedKeysGet := Except.ok {}, createOrUpdateError := none }
    (some {}) rfl).1

/-- A configuration on which the create-read round trip fails: the location is
not in normalized form, and internal_load_balancer_enabled is true while
infrastructure_subnet_id is empty. -/
def roundTripCfg : ContainerAppEnvironmentModel :=
  { Name := "env1", ResourceGroup := "rg1", Location := "West Europe",
    LogAnalyticsWorkspaceId := "lawid1", InfrastructureSubnetId := "",
    InternalLoadBalancerEnabled := true }

/-- The state Read produces for roundTripCfg when the remote returns exactly
the model Create stored. -/
def roundTripReadBack : ContainerAppEnvironmentModel :=
  ContainerAppEnvironmentResource.flattenRead roundTripCfg.Name roundTripCfg.ResourceGroup
    (some (ContainerAppEnvironmentResource.createPayload roundTripCfg "cust1" "key1"))
    roundTripCfg.LogAnalyticsWorkspaceId

/-- Claim C4 counterexample: for the configuration roundTripCfg, even with the
remote returning exactly what Create stored, Read yields
internal_load_balancer_enabled false (the Internal flag was never
transmitted, the subnet being empty) and location "westeurope" (re-normalized
on read), both different from the configured values. -/
theorem claim_C4_counterexample :
    roundTripReadBack.InternalLoadBalancerEnabled ≠ roundTripCfg.InternalLoadBalancerEnabled
    ∧ roundTripReadBack.Location ≠ roundTripCfg.Location := by
  constructor <;> decide

/-- Claim C4 as amended: the create-read round trip restores every
user-settable field of both resources, for configurations where the location
is already in normalized form, the required log_analytics_workspace_id is
non-empty, internal_load_balancer_enabled is false whenever
infrastructure_subnet_id is empty (as the schema documents), and the
configured synapse_workspace_id is in canonical resource-ID form — assuming
the remote returns exactly what was stored. -/
theorem claim_C4_amended_round_trip (cfg : ContainerAppEnvironmentModel)
    (customerId sharedKey : String)
    (hloc : location.Normalize cfg.Location = cfg.Location)
    (hlaw : cfg.LogAnalyticsWorkspaceId ≠ "")
    (hilb : cfg.InfrastructureSubnetId = "" → cfg.InternalLoadBalancerEnabled = false)
    (scfg : AadAdminConfig) (wid : WorkspaceId)
    (hwid : wid.ID = scfg.synapse_workspace_id) :
    ((ContainerAppEnvironmentResource.flattenRead cfg.Name cfg.ResourceGroup
        (some (ContainerAppEnvironmentResource.createPayload cfg customerId sharedKey))
        cfg.LogAnalyticsWorkspaceId).Name = cfg.Name
      ∧ (ContainerAppEnvironmentResource.flattenRead cfg.Name cfg.ResourceGroup
          (some (ContainerAppEnvironmentResource.createPayload cfg customerId sharedKey))
          cfg.LogAnalyticsWorkspaceId).ResourceGroup = cfg.ResourceGroup
      ∧ (ContainerAppEnvironmentResource.flattenRead cfg.Name cfg.ResourceGroup
          (some (ContainerAppEnvironmentResource.createPayload cfg customerId sharedKey))
          cfg.LogAnalyticsWorkspaceId).Location = cfg.Location
      ∧ (ContainerAppEnvironmentResource.flattenRead cfg.Name cfg.ResourceGroup
          (some (ContainerAppEnvironmentResource.createPayload cfg customerId sharedKey))
          cfg.LogAnalyticsWorkspaceId).LogAnalyticsWorkspaceId = cfg.LogAnalyticsWorkspaceId
      ∧ (ContainerAppEnvironmentResource.flattenRead cfg.Name cfg.ResourceGroup
          (some (ContainerAppEnvironmentResource.createPayload cfg customerId sharedKey))
          cfg.LogAnalyticsWorkspaceId).InfrastructureSubnetId = cfg.InfrastructureSubnetId
      ∧ (ContainerAppEnvironmentResource.flattenRead cfg.Name cfg.ResourceGroup
          (some (ContainerAppEnvironmentResource.createPayload cfg customerId sharedKey))
          cfg.LogAnalyticsWorkspaceId).InternalLoadBalancerEnabled
          = cfg.InternalLoadBalancerEnabled
      ∧ (ContainerAppEnvironmentResource.flattenRead cfg.Name cfg.ResourceGroup
          (some (ContainerAppEnvironmentResource.createPayload cfg customerId sharedKey))
          cfg.LogAnalyticsWorkspaceId).Tags = cfg.Tags)
    ∧ (resourceSynapseWorkspaceAADAdminCreateUpdateFunc scfg wid
          { remoteExists := false, createOrUpdate := fun _ => none, waitError := none,
            getResult := GetResult.ok (some (synapseAadAdminPayload scfg)) }).1
        = OpOutcome.ok
            { synapse_workspace_id := scfg.synapse_workspace_id,
              login := scfg.login, object_id := scfg.object_id,
              tenant_id := scfg.tenant_id } := by
  constructor
  · by_cases h : cfg.InfrastructureSubnetId = ""
    · have hb := hilb h
      simp [ContainerAppEnvironmentResource.flattenRead,
        ContainerAppEnvironmentResource.flattenModel,
        ContainerAppEnvironmentResource.createPayload,
        ContainerAppEnvironmentResource.createVnetConfiguration,
        ContainerAppEnvironmentModel.empty, utils.NormalizeNilableString,
        utils.NormaliseNilableBool, tags.Expand, tags.Flatten, h, hb, hloc, hlaw]
    · simp [ContainerAppEnvironmentResource.flattenRead,
        ContainerAppEnvironmentResource.flattenModel,
        ContainerAppEnvironmentResource.createPayload,
        ContainerAppEnvironmentResource.createVnetConfiguration,
        ContainerAppEnvironmentModel.empty, utils.NormalizeNilableString,
        utils.NormaliseNilableBool, tags.Expand, tags.Flatten, h, hloc, hlaw]
  · simp [resourceSynapseWorkspaceAADAdminCreateUpdateFunc,
      resourceSynapseWorkspaceAADAdminReadFunc, synapseAadAdminPayload,
      utils.NormalizeNilableString]
    exact hwid

/-- A concrete configuration satisfying the side conditions of the amended
round-trip claim. -/
def roundTripWitnessCfg : ContainerAppEnvironmentModel :=
  { Name := "env1", ResourceGroup := "rg1", Location := "westeurope",
    LogAnalyticsWorkspaceId := "lawid1", InfrastructureSubnetId := "subnet1",
    InternalLoadBalancerEnabled := true, Tags := [("k1", "v1")] }

/-- A concrete Synapse AAD admin configuration whose workspace ID is in
canonical form. -/
def roundTripWitnessSynapseCfg : AadAdminConfig :=
  { synapse_workspace_id :=
      "/subscriptions/sub1/resourceGroups/rg1/providers/Microsoft.Synapse/workspaces/ws1",
    login := "admin1", object_id := "oid1", tenant_id := "tid1" }

/-- Witness for the amended Claim C4 at a concrete configuration: with the
side conditions discharged, the read-back internal_load_balancer_enabled
equals the configured value. -/
theorem claim_C4_amended_round_trip_witness :
    (ContainerAppEnvironmentResource.flattenRead roundTripWitnessCfg.Name
        roundTripWitnessCfg.ResourceGroup
        (some (ContainerAppEnvironmentResource.createPayload roundTripWitnessCfg
          "cust1" "key1"))
        roundTripWitnessCfg.LogAnalyticsWorkspaceId).InternalLoadBalancerEnabled
      = roundTripWitnessCfg.InternalLoadBalancerEnabled :=
  (claim_C4_amended_round_trip roundTripWitnessCfg "cust1" "key1" (by decide) (by decide)
    (by intro h; exact absurd h (by decide)) roundTripWitnessSynapseCfg
    ⟨"sub1", "rg1", "ws1"⟩ (by decide)).1.2.2.2.2.2.1

/-- Whatever the remote returns, the Synapse AAD admin Read performs exactly
one remote call, its Get. -/
theorem synapseRead_trace (id : WorkspaceAADAdminId)
    (g : GetResult synapse.WorkspaceAadAdminInfo) :
    (resourceSynapseWorkspaceAADAdminReadFunc id g).2 = [RemoteCall.synapseAadAdminGet] := by
  rcases g with e | e | m
  · rfl
  · rfl
  · rcases m with _ | ⟨props⟩
    · rfl
    · rcases props with _ | p <;> rfl

/-- Claim C8: every error an operation surfaces that originates from a remote
API call is wrapped with operation context (operation wording plus the
resource identity) before being returned — each failing remote call is listed
with the exact wrapped message — and no operation retries or compensates:
on every oracle, each operation's trace of remote calls is duplicate-free
(the SDK's long-running-operation polling lives inside a single traced
call). -/
theorem claim_C8_error_wrapping_no_retry :
    (∀ (cfg : ContainerAppEnvironmentModel) (idS lawS : String)
        (wg : Except String loganalytics.Workspace)
        (kg : Except String loganalytics.SharedKeys) (cu : Option String) (e : String),
        (ContainerAppEnvironmentResource.CreateFunc cfg idS lawS
            { getResult := GetResult.errOther e, workspaceGet := wg,
              sharedKeysGet := kg, createOrUpdateError := cu }).1
          = OpOutcome.error ("checking for presence of existing " ++ idS ++ ": " ++ e))
    ∧ (∀ (cfg : ContainerAppEnvironmentModel) (idS lawS e0 : String)
        (kg : Except String loganalytics.SharedKeys) (cu : Option String) (e : String),
        (ContainerAppEnvironmentResource.CreateFunc cfg idS lawS
            { getResult := GetResult.notFound e0, workspaceGet := Except.error e,
              sharedKeysGet := kg, createOrUpdateError := cu }).1
          = OpOutcome.error ("retrieving " ++ lawS ++ " for " ++ idS ++ ": " ++ e))
    ∧ (∀ (cfg : ContainerAppEnvironmentModel) (idS lawS e0 c : String)
        (cu : Option String) (e : String),
        (ContainerAppEnvironmentResource.CreateFunc cfg idS lawS
            { getResult := GetResult.notFound e0,
              workspaceGet := Except.ok { WorkspaceProperties := some { CustomerID := some c } },
              sharedKeysGet := Except.error e, createOrUpdateError := cu }).1
          = OpOutcome.error ("retrieving access keys to " ++ lawS ++ " for " ++ idS
              ++ ": " ++ e))
    ∧ (∀ (cfg : ContainerAppEnvironmentModel) (idS lawS e0 c k e : String),
        (ContainerAppEnvironmentResource.CreateFunc cfg idS lawS
            { getResult := GetResult.notFound e0,
              workspaceGet := Except.ok { WorkspaceProperties := some { CustomerID := some c } },
              sharedKeysGet := Except.ok { PrimarySharedKey := some k },
              createOrUpdateError := some e }).1
          = OpOutcome.error ("creating " ++ idS ++ ": " ++ e))
    ∧ (∀ (idS envName rgName cLAW e : String),
        (ContainerAppEnvironmentResource.ReadFunc idS envName rgName cLAW
            (GetResult.errOther e)).1
          = OpOutcome.error ("reading " ++ idS ++ ": " ++ e))
    ∧ (∀ (idS : String) (st : ContainerAppEnvironmentModel) (hch : Bool)
        (cu : Option String) (e : String),
        (ContainerAppEnvironmentResource.UpdateFunc idS (Except.ok st) hch
            (GetResult.errOther e) cu).1
          = OpOutcome.error ("reading " ++ idS ++ ": " ++ e))
    ∧ (∀ (idS : String) (st : ContainerAppEnvironmentModel) (hch : Bool)
        (cu : Option String) (e : String),
        (ContainerAppEnvironmentResource.UpdateFunc idS (Except.ok st) hch
            (GetResult.notFound e) cu).1
          = OpOutcome.error ("reading " ++ idS ++ ": " ++ e))
    ∧ (∀ (idS : String) (st : ContainerAppEnvironmentModel) (hch : Bool)
        (m : managedenvironments.ManagedEnvironment) (e : String),
        (ContainerAppEnvironmentResource.UpdateFunc idS (Except.ok st) hch
            (GetResult.ok (some m)) (some e)).1
          = OpOutcome.error ("updating " ++ idS ++ ": " ++ e))
    ∧ (∀ (idS e : String),
        (ContainerAppEnvironmentResource.DeleteFunc idS (some e)).1
          = OpOutcome.error ("deleting " ++ idS ++ ": " ++ e))
    ∧ (∀ (cfg : AadAdminConfig) (wid : WorkspaceId) (ex : Bool) (w : Option String)
        (g : GetResult synapse.WorkspaceAadAdminInfo) (e : String),
        (resourceSynapseWorkspaceAADAdminCreateUpdateFunc cfg wid
            { remoteExists := ex, createOrUpdate := fun _ => some e,
              waitError := w, getResult := g }).1
          = OpOutcome.error ("updating Synapse Workspace " ++ goQuote wid.Name
              ++ " AAD Admin (Resource Group " ++ goQuote wid.ResourceGroup ++ "): " ++ e))
    ∧ (∀ (cfg : AadAdminConfig) (wid : WorkspaceId) (ex : Bool)
        (g : GetResult synapse.WorkspaceAadAdminInfo) (e : String),
        (resourceSynapseWorkspaceAADAdminCreateUpdateFunc cfg wid
            { remoteExists := ex, createOrUpdate := fun _ => none,
              waitError := some e, getResult := g }).1
          = OpOutcome.error ("waiting on updating for Synapse Workspace " ++ goQuote wid.Name
              ++ " AAD Admin (Resource Group " ++ goQuote wid.ResourceGroup ++ "): " ++ e))
    ∧ (∀ (cfg : AadAdminConfig) (wid : WorkspaceId) (ex : Bool) (e : String),
        (resourceSynapseWorkspaceAADAdminCreateUpdateFunc cfg wid
            { remoteExists := ex, createOrUpdate := fun _ => none,
              waitError := none, getResult := GetResult.errOther e }).1
          = OpOutcome.error ("retrieving Synapse Workspace " ++ goQuote wid.Name
              ++ " AAD Admin (Resource Group " ++ goQuote wid.ResourceGroup ++ "): " ++ e))
    ∧ (∀ (id : WorkspaceAADAdminId) (e : String),
        (resourceSynapseWorkspaceAADAdminReadFunc id (GetResult.errOther e)).1
          = OpOutcome.error ("retrieving Synapse Workspace " ++ goQuote id.WorkspaceName
              ++ " AAD Admin (Resource Group " ++ goQuote id.ResourceGroup ++ "): " ++ e))
    ∧ (∀ (id : WorkspaceAADAdminId) (w : Option String) (e : String),
        (resourceSynapseWorkspaceAADAdminDeleteFunc id (some e) w).1
          = OpOutcome.error ("setting empty Synapse Workspace " ++ goQuote id.WorkspaceName
              ++ " AAD Admin (Resource Group " ++ goQuote id.ResourceGroup ++ "): " ++ e))
    ∧ (∀ (id : WorkspaceAADAdminId) (e : String),
        (resourceSynapseWorkspaceAADAdminDeleteFunc id none (some e)).1
          = OpOutcome.error ("waiting on setting empty Synapse Workspace "
              ++ goQuote id.WorkspaceName ++ " AAD Admin (Resource Group "
              ++ goQuote id.ResourceGroup ++ "): " ++ e))
    ∧ (∀ (cfg : ContainerAppEnvironmentModel) (idS lawS : String)
        (remote : ContainerCreateRemote),
        ((ContainerAppEnvironmentResource.CreateFunc cfg idS lawS remote).2).Nodup)
    ∧ (∀ (idS envName rgName cLAW : String)
        (g : GetResult managedenvironments.ManagedEnvironment),
        ((ContainerAppEnvironmentResource.ReadFunc idS envName rgName cLAW g).2).Nodup)
    ∧ (∀ (idS : String) (dec : Except String ContainerAppEnvironmentModel) (hch : Bool)
        (g : GetResult managedenvironments.ManagedEnvironment) (cu : Option String),
        ((ContainerAppEnvironmentResource.UpdateFunc idS dec hch g cu).2).Nodup)
    ∧ (∀ (idS : String) (de : Option String),
        ((ContainerAppEnvironmentResource.DeleteFunc idS de).2).Nodup)
    ∧ (∀ (cfg : AadAdminConfig) (wid : WorkspaceId) (remote : SynapseRemote),
        ((resourceSynapseWorkspaceAADAdminCreateUpdateFunc cfg wid remote).2).Nodup)
    ∧ (∀ (id : WorkspaceAADAdminId) (g : GetResult synapse.WorkspaceAadAdminInfo),
        ((resourceSynapseWorkspaceAADAdminReadFunc id g).2).Nodup)
    ∧ (∀ (id : WorkspaceAADAdminId) (de we : Option String),
        ((resourceSynapseWorkspaceAADAdminDeleteFunc id de we).2).Nodup) := by
  refine ⟨?_, ?_, ?_, ?_, ?_, ?_, ?_, ?_, ?_, ?_, ?_, ?_, ?_, ?_, ?_, ?_, ?_, ?_, ?_,
    ?_, ?_, ?_⟩
  · intro cfg idS lawS wg kg cu e; rfl
  · intro cfg idS lawS e0 kg cu e; rfl
  · intro cfg idS lawS e0 c cu e; rfl
  · intro cfg idS lawS e0 c k e; rfl
  · intro idS envName rgName cLAW e; rfl
  · intro idS st hch cu e; rfl
  · intro idS st hch cu e; rfl
  · intro idS st hch m e; rfl
  · intro idS e; rfl
  · intro cfg wid ex w g e; rfl
  · intro cfg wid ex g e; rfl
  · intro cfg wid ex e; rfl
  · intro id e; rfl
  · intro id w e; rfl
  · intro id e; rfl
  · intro cfg idS lawS remote
    rcases remote with ⟨g, wg, kg, cu⟩
    cases g with
    | errOther e => simp [ContainerAppEnvironmentResource.CreateFunc]
    | ok m => simp [ContainerAppEnvironmentResource.CreateFunc]
    | notFound e0 =>
      cases wg with
      | error e => simp [ContainerAppEnvironmentResource.CreateFunc]
      | ok w =>
        rcases w with ⟨wp⟩
        rcases wp with _ | ⟨cid⟩
        · simp [ContainerAppEnvironmentResource.CreateFunc]
        rcases cid with _ | c
        · simp [ContainerAppEnvironmentResource.CreateFunc]
        cases kg with
        | error e => simp [ContainerAppEnvironmentResource.CreateFunc]
        | ok k =>
          rcases k with ⟨pk⟩
          rcases pk with _ | pk
          · simp [ContainerAppEnvironmentResource.CreateFunc]
          cases cu <;> simp [ContainerAppEnvironmentResource.CreateFunc]
  · intro idS envName rgName cLAW g
    cases g <;> simp [ContainerAppEnvironmentResource.ReadFunc]
  · intro idS dec hch g cu
    cases dec with
    | error e => simp [ContainerAppEnvironmentResource.UpdateFunc]
    | ok st =>
      cases g with
      | notFound e => simp [ContainerAppEnvironmentResource.UpdateFunc]
      | errOther e => simp [ContainerAppEnvironmentResource.UpdateFunc]
      | ok m =>
        rcases m with _ | m
        · simp [ContainerAppEnvironmentResource.UpdateFunc]
        cases cu <;> simp [ContainerAppEnvironmentResource.UpdateFunc]
  · intro idS de
    cases de <;> simp [ContainerAppEnvironmentResource.DeleteFunc]
  · intro cfg wid remote
    unfold resourceSynapseWorkspaceAADAdminCreateUpdateFunc
    rcases remote.createOrUpdate (synapseAadAdminPayload cfg) with _ | e
    · rcases remote.waitError with _ | e
      · simp [synapseRead_trace]
      · simp
    · simp
  · intro id g
    rw [synapseRead_trace]
    simp
  · intro id de we
    cases de with
    | some e => simp [resourceSynapseWorkspaceAADAdminDeleteFunc]
    | none => cases we <;> simp [resourceSynapseWorkspaceAADAdminDeleteFunc]
